import Mathlib

/-!
Shallow embedding of the FutureCropAI browser scripts and proofs about them.

Source files embedded:
- src/unnamed/part_000 (SELECT-based price app): namespace P0
- src/unnamed/part_001 (frontend1/price_app.js): namespace P1
- src/backend1/frontend1/crop_app.js: namespace Crop

DOM selects are modelled as records (disabled flag, placeholder text of the
first option, option list, selected value); fetch outcomes are passed as
explicit parameters to the handler functions; toast/alert calls are emitted
as events.  Async handlers with an await point are additionally split into a
synchronous prefix and a resume continuation so that interleavings of the
browser event loop can be expressed.
-/

namespace FutureCrop

/-- Whitespace characters stripped by String.prototype.trim (ASCII fragment). -/
def isJsWhitespace (c : Char) : Bool :=
  c = ' ' || c = '\t' || c = '\n' || c = '\r' || c = '\x0b' || c = '\x0c'

/-- Model of JavaScript String.prototype.trim: strip leading and trailing whitespace. -/
def jsTrim (s : String) : String :=
  String.mk (((s.data.dropWhile isJsWhitespace).reverse.dropWhile isJsWhitespace).reverse)

/-- Model of the regex test /^\d{4}-\d{2}-\d{2}$/ from part_000 line 133:
exactly four digits, a hyphen, two digits, a hyphen, two digits. -/
def matchesDatePattern (s : String) : Bool :=
  match s.data with
  | [y1, y2, y3, y4, h1, m1, m2, h2, d1, d2] =>
    y1.isDigit && y2.isDigit && y3.isDigit && y4.isDigit && h1 = '-' &&
    m1.isDigit && m2.isDigit && h2 = '-' && d1.isDigit && d2.isDigit
  | _ => false

/-- The normalized query object returned by part_000's validate (line 137). -/
structure Query where
  commodity : String
  state : String
  market : String
  date : Option String
deriving DecidableEq, Repr

/-- Which validation toast fired when part_000's validate returned null
(lines 130-135): each constructor stands for one of the four early returns. -/
inductive ValidationFailure
  | noCommodity
  | noState
  | noMarket
  | badDate
deriving DecidableEq, Repr

/-- Embedding of part_000 validate (lines 124-138).  Inputs are the raw
values of the four controls; the JS null return together with its toast is
modelled as the error case naming the toast that fired. -/
def validate (c s m d : String) : Except ValidationFailure Query :=
  let c := jsTrim c
  let s := jsTrim s
  let m := jsTrim m
  let d := jsTrim d
  if c = "" then .error .noCommodity
  else if s = "" then .error .noState
  else if m = "" then .error .noMarket
  else if d ≠ "" ∧ matchesDatePattern d = false then .error .badDate
  else .ok { commodity := c, state := s, market := m,
             date := if d = "" then none else some d }

/-- Modelled from the spec: the requirement associated with each validation
failure, in the spec's words (commodity required, state required, market
required, date if present must match the pattern). -/
def requirementMet (c s m d : String) : ValidationFailure → Bool
  | .noCommodity => jsTrim c ≠ ""
  | .noState => jsTrim s ≠ ""
  | .noMarket => jsTrim m ≠ ""
  | .badDate => jsTrim d = "" || matchesDatePattern (jsTrim d)

/-- Modelled from the spec: the first unmet requirement in the fixed order
commodity → state → market → date pattern. -/
def firstUnmet (c s m d : String) : Option ValidationFailure :=
  [ValidationFailure.noCommodity, .noState, .noMarket, .badDate].find?
    (fun req => ¬ requirementMet c s m d req)

/-- Head of a dropWhile never satisfies the dropped predicate. -/
theorem head_dropWhile_false (p : Char → Bool) (l : List Char) :
    ∀ c cs, l.dropWhile p = c :: cs → p c = false := by
  induction l with
  | nil => intro c cs h; simp [List.dropWhile] at h
  | cons a t ih =>
    intro c cs h
    by_cases hp : p a
    · rw [List.dropWhile_cons_of_pos hp] at h
      exact ih c cs h
    · rw [List.dropWhile_cons_of_neg hp] at h
      cases h
      exact Bool.of_not_eq_true hp

/-- A character list has no leading whitespace. -/
def noLeadingWS : List Char → Bool
  | [] => true
  | c :: _ => !(isJsWhitespace c)

/-- A string is whitespace-trimmed: no leading and no trailing whitespace. -/
def isJsTrimmed (s : String) : Bool :=
  noLeadingWS s.data && noLeadingWS s.data.reverse

theorem noLeadingWS_dropWhile (l : List Char) :
    noLeadingWS (l.dropWhile isJsWhitespace) = true := by
  cases h : l.dropWhile isJsWhitespace with
  | nil => rfl
  | cons c cs =>
    simp [noLeadingWS, head_dropWhile_false isJsWhitespace l c cs h]

theorem jsTrim_isJsTrimmed (s : String) : isJsTrimmed (jsTrim s) = true := by
  unfold isJsTrimmed jsTrim
  have hdata : (String.mk (((s.data.dropWhile isJsWhitespace).reverse.dropWhile
      isJsWhitespace).reverse)).data =
      ((s.data.dropWhile isJsWhitespace).reverse.dropWhile isJsWhitespace).reverse := rfl
  rw [hdata, List.reverse_reverse]
  have htrail := noLeadingWS_dropWhile ((s.data.dropWhile isJsWhitespace).reverse)
  have hlead : noLeadingWS (((s.data.dropWhile isJsWhitespace).reverse.dropWhile
      isJsWhitespace).reverse) = true := by
    have hsplit := List.takeWhile_append_dropWhile (p := isJsWhitespace)
      (l := (s.data.dropWhile isJsWhitespace).reverse)
    have hrev : ((s.data.dropWhile isJsWhitespace).reverse.dropWhile
        isJsWhitespace).reverse ++
        ((s.data.dropWhile isJsWhitespace).reverse.takeWhile isJsWhitespace).reverse =
        s.data.dropWhile isJsWhitespace := by
      have h2 := congrArg List.reverse hsplit
      rw [List.reverse_append, List.reverse_reverse] at h2
      exact h2
    have hl1 := noLeadingWS_dropWhile s.data
    cases hres : ((s.data.dropWhile isJsWhitespace).reverse.dropWhile
        isJsWhitespace).reverse with
    | nil => rfl
    | cons c cs =>
      rw [hres] at hrev
      rw [← hrev] at hl1
      simpa [noLeadingWS] using hl1
  rw [hlead, htrail]
  rfl

/-- Did validate succeed (return a query object rather than null)? -/
def succeeded : Except ValidationFailure Query → Bool
  | .ok _ => true
  | .error _ => false

/-- C2: for every SelectionContext, validate either returns a complete
normalized query (error case empty, fields the trimmed inputs, empty date
omitted) or reports exactly the first unmet requirement in the fixed order
commodity → state → market → date pattern. -/
theorem validate_reports_first_unmet (c s m d : String) :
    (∀ e, validate c s m d = .error e → firstUnmet c s m d = some e) ∧
    (∀ q, validate c s m d = .ok q →
      firstUnmet c s m d = none ∧
      q.commodity = jsTrim c ∧ q.state = jsTrim s ∧ q.market = jsTrim m ∧
      q.date = (if jsTrim d = "" then none else some (jsTrim d))) := by
  by_cases hc : jsTrim c = "" <;>
  by_cases hs : jsTrim s = "" <;>
  by_cases hm : jsTrim m = "" <;>
  by_cases hd : jsTrim d = "" <;>
  by_cases hp : matchesDatePattern (jsTrim d) = true <;>
  simp_all [validate, firstUnmet, requirementMet, List.find?]

/-- Witness for C2: concrete evaluation of the contract. -/
theorem validate_reports_first_unmet_witness :
    firstUnmet "" "Punjab" "Ludhiana" "2024-01-05" = some .noCommodity :=
  (validate_reports_first_unmet "" "Punjab" "Ludhiana" "2024-01-05").1
    ValidationFailure.noCommodity rfl

/-- C3: with commodity, state and market selected and a non-empty date, the
date check is a pure pattern test: validation succeeds exactly when the
trimmed date matches the 4-2-2 digit pattern; "2024-13-40" passes and is put
in the query unchanged, while "2024-1-5" fails with the bad-date toast. -/
theorem date_check_is_pattern_only (c s m d : String)
    (hc : jsTrim c ≠ "") (hs : jsTrim s ≠ "") (hm : jsTrim m ≠ "")
    (hd : jsTrim d ≠ "") :
    succeeded (validate c s m d) = matchesDatePattern (jsTrim d) ∧
    validate "Wheat" "Punjab" "Ludhiana" "2024-13-40" =
      .ok ⟨"Wheat", "Punjab", "Ludhiana", some "2024-13-40"⟩ ∧
    validate "Wheat" "Punjab" "Ludhiana" "2024-1-5" = .error .badDate := by
  refine ⟨?_, rfl, rfl⟩
  by_cases hp : matchesDatePattern (jsTrim d) = true <;>
  simp_all [validate, succeeded]

/-- Witness for C3: the pattern-only equivalence evaluated at a calendar-invalid
but pattern-valid date. -/
theorem date_check_is_pattern_only_witness :
    succeeded (validate "Wheat" "Punjab" "Ludhiana" "2024-13-40") =
      matchesDatePattern (jsTrim "2024-13-40") :=
  (date_check_is_pattern_only "Wheat" "Punjab" "Ludhiana" "2024-13-40"
    (by decide) (by decide) (by decide) (by decide)).1

/-- C10: validate is total (never throws) and on every input returns either
null or a query object whose commodity, state and market are non-empty
whitespace-trimmed strings and whose date is absent or matches the 4-2-2
digit pattern. -/
theorem validate_result_shape (c s m d : String) :
    (∃ e, validate c s m d = .error e) ∨
    (∃ q, validate c s m d = .ok q ∧
      q.commodity ≠ "" ∧ isJsTrimmed q.commodity = true ∧
      q.state ≠ "" ∧ isJsTrimmed q.state = true ∧
      q.market ≠ "" ∧ isJsTrimmed q.market = true ∧
      (q.date = none ∨ ∃ ds, q.date = some ds ∧ matchesDatePattern ds = true)) := by
  by_cases hc : jsTrim c = ""
  · exact Or.inl ⟨.noCommodity, by simp [validate, hc]⟩
  by_cases hs : jsTrim s = ""
  · exact Or.inl ⟨.noState, by simp [validate, hc, hs]⟩
  by_cases hm : jsTrim m = ""
  · exact Or.inl ⟨.noMarket, by simp [validate, hc, hs, hm]⟩
  by_cases hd : jsTrim d = ""
  · refine Or.inr ⟨⟨jsTrim c, jsTrim s, jsTrim m, none⟩, ?_, hc, jsTrim_isJsTrimmed c,
      hs, jsTrim_isJsTrimmed s, hm, jsTrim_isJsTrimmed m, Or.inl rfl⟩
    simp [validate, hc, hs, hm, hd]
  by_cases hp : matchesDatePattern (jsTrim d) = true
  · refine Or.inr ⟨⟨jsTrim c, jsTrim s, jsTrim m, some (jsTrim d)⟩, ?_, hc,
      jsTrim_isJsTrimmed c, hs, jsTrim_isJsTrimmed s, hm, jsTrim_isJsTrimmed m,
      Or.inr ⟨jsTrim d, rfl, hp⟩⟩
    simp [validate, hc, hs, hm, hd, hp]
  · exact Or.inl ⟨.badDate, by simp [validate, hc, hs, hm, hd, hp]⟩

/-- Model of one select element: disabled flag, text of the placeholder
(first, empty-valued) option, the real options, and the selected value. -/
structure SelState where
  disabled : Bool
  placeholder : String
  options : List String
  value : String
deriving DecidableEq, Repr

/-- part_000 setDisabled (lines 46-51), always called with a placeholder:
sets the disabled flag and replaces the innerHTML with the single
placeholder option, which also clears the selection. -/
def setDisabled (d : Bool) (placeholder : String) : SelState :=
  { disabled := d, placeholder := placeholder, options := [], value := "" }

/-- part_000 fillSelect (lines 53-57): placeholder option followed by the
items; the select ends up disabled exactly when items is empty; replacing
the innerHTML clears the selection. -/
def fillSelect (items : List String) (firstText : String) : SelState :=
  { disabled := items.isEmpty, placeholder := firstText, options := items, value := "" }

/-- Outcome of an apiGet/fetchJSON call: ok carries the payload field of the
JSON body, which may be absent (the code guards with res.states || []);
fail stands for a non-ok status or network error (the JS catch path). -/
inductive FetchOutcome (α : Type)
  | ok (payload : Option α)
  | fail
deriving DecidableEq, Repr

namespace P0

/-- The two dependent selects of part_000. -/
structure UIState where
  stateSel : SelState
  marketSel : SelState
deriving DecidableEq, Repr

/-- Initial UI state after init (part_000 lines 84-86). -/
def initUI : UIState :=
  ⟨setDisabled true "Select commodity first…", setDisabled true "Select state first…"⟩

/-- Synchronous prefix of part_000's commodity change handler (lines 93-98),
up to the await on the /states fetch: reads and trims the current commodity
value, disables the market select, then either returns early on an empty
commodity or shows the loading placeholder; some c means a fetch for c was
issued. -/
def commodityChangeStart (commodityValue : String) (st : UIState) :
    UIState × Option String :=
  let c := jsTrim commodityValue
  let st1 := { st with marketSel := setDisabled true "Select state first…" }
  if c = "" then ({ st1 with stateSel := setDisabled true "Select commodity first…" }, none)
  else ({ st1 with stateSel := setDisabled true "Loading states…" }, some c)

/-- Continuation of part_000's commodity change handler (lines 99-105), run
when its /states fetch settles; returns the new UI state and the toasts
fired.  The handler performs no staleness check, so the result is committed
unconditionally. -/
def commodityChangeResume (res : FetchOutcome (List String)) (st : UIState) :
    UIState × List String :=
  match res with
  | .ok payload =>
    ({ st with stateSel := fillSelect (payload.getD []) "Select a state…" }, [])
  | .fail =>
    ({ st with stateSel := setDisabled true "States unavailable" },
     ["Could not load states for this commodity."])

/-- The whole commodity change handler when its fetch, if issued, settles
without any interleaved event. -/
def commodityChange (commodityValue : String) (res : FetchOutcome (List String))
    (st : UIState) : UIState × List String :=
  match commodityChangeStart commodityValue st with
  | (st1, none) => (st1, [])
  | (st1, some _) => commodityChangeResume res st1

/-- Two commodity changes in close succession, where the first change's
fetch is still in flight when the second change occurs and settles only
after the second change's fetch: event-loop order start v1, start v2,
resume with r2, resume with r1. -/
def twoChangesFirstSettlesLast (v1 v2 : String) (r1 r2 : FetchOutcome (List String))
    (st0 : UIState) : UIState :=
  let p1 := commodityChangeStart v1 st0
  let p2 := commodityChangeStart v2 p1.1
  let s3 := match p2.2 with
    | some _ => (commodityChangeResume r2 p2.1).1
    | none => p2.1
  match p1.2 with
  | some _ => (commodityChangeResume r1 s3).1
  | none => s3

/-- part_000's clear button handler (lines 166-173), restricted to the two
dependent selects (it also clears the commodity value and the result panel). -/
def clearClick (st : UIState) : UIState :=
  { st with stateSel := setDisabled true "Select commodity first…",
            marketSel := setDisabled true "Select state first…" }

end P0

namespace P1

/-- part_001 onCommodityChange (lines 79-116): returns the new state select,
the new market select and the toasts fired.  Values are not trimmed here.
On zero states the select keeps the disabled flag set during loading and
shows the "No states found" placeholder; on fetch failure it shows "Error
loading states". -/
def onCommodityChange (commodityValue : String) (res : FetchOutcome (List String)) :
    SelState × SelState × List String :=
  let marketSel : SelState := ⟨true, "Select state first…", [], ""⟩
  if commodityValue = "" then (⟨true, "Select commodity first…", [], ""⟩, marketSel, [])
  else match res with
    | .ok payload =>
      let states := payload.getD []
      if states.isEmpty then
        (⟨true, "No states found", [], ""⟩, marketSel,
         ["No states found for this commodity in DB."])
      else (⟨false, "Select state…", states, ""⟩, marketSel, [])
    | .fail => (⟨true, "Error loading states", [], ""⟩, marketSel, ["Failed to load states."])

/-- part_001 onStateChange (lines 118-155): new market select and toasts. -/
def onStateChange (commodityValue stateValue : String) (res : FetchOutcome (List String)) :
    SelState × List String :=
  if commodityValue = "" ∨ stateValue = "" then (⟨true, "Select state first…", [], ""⟩, [])
  else match res with
    | .ok payload =>
      let markets := payload.getD []
      if markets.isEmpty then
        (⟨true, "No markets found", [], ""⟩, ["No markets found for this state."])
      else (⟨false, "Select market…", markets, ""⟩, [])
    | .fail => (⟨true, "Error loading markets", [], ""⟩, ["Failed to load markets."])

/-- part_001 clearForm (lines 321-337), restricted to the two dependent
selects: both are reset to their disabled placeholder-only display. -/
def clearForm : SelState × SelState :=
  (⟨true, "Select commodity first…", [], ""⟩, ⟨true, "Select state first…", [], ""⟩)

end P1

/-- C1 (code bug): part_000's commodity handler commits fetch results with
no staleness guard, so when the selection changes from Wheat to Rice and
Wheat's /states response settles after Rice's, the finally displayed state
options are Wheat's, not those of the latest selection Rice. -/
theorem stale_states_fetch_overwrites_newer :
    (P0.twoChangesFirstSettlesLast "Wheat" "Rice"
      (.ok (some ["Punjab"])) (.ok (some ["WestBengal"])) P0.initUI).stateSel.options
      = ["Punjab"] ∧
    (P0.commodityChange "Rice" (.ok (some ["WestBengal"])) P0.initUI).1.stateSel.options
      = ["WestBengal"] ∧
    (["Punjab"] : List String) ≠ ["WestBengal"] :=
  ⟨rfl, rfl, by decide⟩

/-- C8: from every prior control state, clearing the commodity selection --
selecting a value that trims to empty, or the clear button, in part_000, and
clearForm in part_001 -- resets both the state and market selects to a
disabled placeholder-only display with no options and no selected value. -/
theorem clear_resets_dependent_selects (st : P0.UIState)
    (res : FetchOutcome (List String)) (v : String) (hv : jsTrim v = "") :
    P0.commodityChange v res st =
      (⟨⟨true, "Select commodity first…", [], ""⟩, ⟨true, "Select state first…", [], ""⟩⟩, []) ∧
    P0.clearClick st =
      ⟨⟨true, "Select commodity first…", [], ""⟩, ⟨true, "Select state first…", [], ""⟩⟩ ∧
    P1.clearForm =
      (⟨true, "Select commodity first…", [], ""⟩, ⟨true, "Select state first…", [], ""⟩) ∧
    P1.onCommodityChange "" res =
      (⟨true, "Select commodity first…", [], ""⟩, ⟨true, "Select state first…", [], ""⟩, []) := by
  refine ⟨?_, rfl, rfl, rfl⟩
  simp [P0.commodityChange, P0.commodityChangeStart, hv, setDisabled]

/-- Witness for C8: clearing evaluated from a concrete prior state. -/
theorem clear_resets_dependent_selects_witness :
    P0.commodityChange " " FetchOutcome.fail
      ⟨⟨false, "Select a state…", ["Punjab"], "Punjab"⟩,
       ⟨false, "Select a market…", ["Ludhiana"], "Ludhiana"⟩⟩ =
      (⟨⟨true, "Select commodity first…", [], ""⟩, ⟨true, "Select state first…", [], ""⟩⟩, []) :=
  (clear_resets_dependent_selects
    ⟨⟨false, "Select a state…", ["Punjab"], "Punjab"⟩,
     ⟨false, "Select a market…", ["Ludhiana"], "Ludhiana"⟩⟩
    FetchOutcome.fail " " rfl).1

/-- Numeric field validation failures thrown by crop_app getNumber
(lines 18-36); each constructor identifies the thrown Error message. -/
inductive NumFieldError
  | emptyField (id : String)
  | notANumber (id : String)
  | outOfRange (id : String)
deriving DecidableEq, Repr

/-- Primitive user-visible effects of the click handlers: toggling the
trigger button's disabled flag, issuing a request, toasts and alerts. -/
inductive UIEvent
  | btnDisabled (b : Bool)
  | request (endpoint : String)
  | toastErr (msg : String)
  | toastOk (msg : String)
  | alertErr (e : NumFieldError)
  | alertMsg (msg : String)
deriving DecidableEq, Repr

/-- Starting from disabled flag d, is every request of the trace issued
while the trigger control is disabled? -/
def requestsWhileDisabled (d : Bool) : List UIEvent → Bool
  | [] => true
  | .btnDisabled b :: rest => requestsWhileDisabled b rest
  | .request _ :: rest => d && requestsWhileDisabled d rest
  | _ :: rest => requestsWhileDisabled d rest

/-- The trigger control's disabled flag after the trace runs. -/
def finalDisabled (d : Bool) : List UIEvent → Bool
  | [] => d
  | .btnDisabled b :: rest => finalDisabled b rest
  | _ :: rest => finalDisabled d rest

/-- Does the trace ever toggle the trigger control's disabled flag? -/
def togglesDisabled : List UIEvent → Bool
  | [] => false
  | .btnDisabled _ :: _ => true
  | _ :: rest => togglesDisabled rest

/-- Ten to the n, on Int, by structural recursion (kernel-evaluable). -/
def pow10 : Nat → Int
  | 0 => 1
  | n + 1 => 10 * pow10 n

/-- A decimal numeral value, mant / 10 ^ scale.  The JS numbers flowing
through the crop form are produced by Number() from decimal form-field
strings, so every such value is exactly representable this way; arithmetic
stays on Int/Nat. -/
structure Dec where
  mant : Int
  scale : Nat
deriving DecidableEq, Repr

/-- Value order on decimals by cross multiplication (denominators are
positive powers of ten). -/
def Dec.lt (a b : Dec) : Bool :=
  a.mant * pow10 b.scale < b.mant * pow10 a.scale

/-- The rational number a decimal denotes. -/
def Dec.toRat (d : Dec) : ℚ := (d.mant : ℚ) / (10 : ℚ) ^ d.scale

theorem pow10_cast (n : Nat) : ((pow10 n : Int) : ℚ) = (10 : ℚ) ^ n := by
  induction n with
  | zero => simp [pow10]
  | succ k ih => rw [pow10, pow_succ]; push_cast [ih]; ring

theorem pow10_pos (n : Nat) : (0 : ℚ) < ((10 : ℚ) ^ n) := by positivity

/-- Dec.lt computes exactly the order of the denoted rationals. -/
theorem Dec.lt_iff_toRat (a b : Dec) : a.lt b = true ↔ a.toRat < b.toRat := by
  unfold Dec.lt Dec.toRat
  rw [div_lt_div_iff₀ (pow10_pos a.scale) (pow10_pos b.scale), decide_eq_true_eq]
  rw [← pow10_cast a.scale, ← pow10_cast b.scale]
  exact_mod_cast Iff.rfl

namespace Crop

/-- Decimal digit characters read as a natural number. -/
def digitsToNat (l : List Char) : Nat :=
  l.foldl (fun acc c => 10 * acc + (c.toNat - '0'.toNat)) 0

/-- Parse an unsigned decimal numeral: digits, optionally a dot and further
digits; none models NaN. -/
def parseDecimal (l : List Char) : Option Dec :=
  let intPart := l.takeWhile Char.isDigit
  let rest := l.dropWhile Char.isDigit
  match rest with
  | [] => if intPart.isEmpty then none else some ⟨Int.ofNat (digitsToNat intPart), 0⟩
  | '.' :: frac =>
    if frac.all Char.isDigit && !(intPart.isEmpty && frac.isEmpty) then
      some ⟨Int.ofNat (digitsToNat intPart * 10 ^ frac.length + digitsToNat frac),
            frac.length⟩
    else none
  | _ => none

/-- Model of the JS Number() conversion on the plain decimal fragment used
by the numeric form fields: surrounding whitespace is ignored, the empty
string is 0, then an optional sign and a decimal numeral; everything else
(including the unmodelled exponent and hex forms) is NaN (none). -/
def jsNumber (s : String) : Option Dec :=
  let t := jsTrim s
  if t = "" then some ⟨0, 0⟩
  else match t.data with
    | '-' :: rest => (parseDecimal rest).map (fun d => ⟨-d.mant, d.scale⟩)
    | '+' :: rest => parseDecimal rest
    | l => parseDecimal l

/-- crop_app getNumber (lines 18-36): trim, empty check, NaN check, then the
range check v < min || v > max against the documented (integer) bounds. -/
def getNumber (id raw : String) (lo hi : Int) : Except NumFieldError Dec :=
  let r := jsTrim raw
  if r = "" then .error (.emptyField id)
  else match jsNumber r with
    | none => .error (.notANumber id)
    | some v => if v.lt ⟨lo, 0⟩ || Dec.lt ⟨hi, 0⟩ v then .error (.outOfRange id) else .ok v

/-- The JSON body of POST /crop/recommend (crop_app lines 48-56). -/
structure CropPayload where
  N : Dec
  P : Dec
  K : Dec
  temperature : Dec
  humidity : Dec
  ph : Dec
  rainfall : Dec
deriving DecidableEq, Repr

/-- crop_app onRecommendClick (lines 38-56), payload construction: the seven
fields are read in order, each with its documented bounds; the first thrown
error aborts the whole try block before the fetch. -/
def recommendPayload (n p k temp hum phRaw rain : String) :
    Except NumFieldError CropPayload := do
  let vN ← getNumber "N" n 0 200
  let vP ← getNumber "P" p 0 200
  let vK ← getNumber "K" k 0 300
  let vT ← getNumber "temperature" temp (-10) 60
  let vH ← getNumber "humidity" hum 0 100
  let vPh ← getNumber "ph" phRaw 0 14
  let vR ← getNumber "rainfall" rain 0 500
  return ⟨vN, vP, vK, vT, vH, vPh, vR⟩

/-- crop_app onRecommendClick (lines 38-75) as a trace of user-visible
effects: a validation failure alerts and issues no request; otherwise the
/crop/recommend request is sent and the outcome yields the success toast or
the caught error's alert.  The handler never touches any disabled flag. -/
def onRecommendClick (n p k temp hum phRaw rain : String)
    (outcome : Except String Unit) : List UIEvent :=
  match recommendPayload n p k temp hum phRaw rain with
  | .error e => [.alertErr e]
  | .ok _ =>
    [.request "/crop/recommend"] ++
    (match outcome with
     | .ok _ => [.toastOk "Crop recommendation generated."]
     | .error msg => [.alertMsg msg])

end Crop

/-- C4: a numeric input whose value parses but lies outside the field's
documented bounds is rejected locally (for N=250 the handler alerts and no
request event occurs), and in-bounds inputs pass validation and appear
verbatim in the request payload (N=150 yields payload field N = 150 and the
request is issued). -/
theorem crop_out_of_bounds_rejected (idf raw : String) (lo hi : Int) (v : Dec)
    (hne : jsTrim raw ≠ "") (hparse : Crop.jsNumber (jsTrim raw) = some v)
    (hout : (v.lt ⟨lo, 0⟩ || Dec.lt ⟨hi, 0⟩ v) = true) :
    Crop.getNumber idf raw lo hi = .error (.outOfRange idf) ∧
    (∀ p k t h f r out, Crop.onRecommendClick "250" p k t h f r out =
      [.alertErr (.outOfRange "N")]) ∧
    Crop.recommendPayload "150" "50" "50" "25" "60" "6.5" "100" =
      .ok ⟨⟨150, 0⟩, ⟨50, 0⟩, ⟨50, 0⟩, ⟨25, 0⟩, ⟨60, 0⟩, ⟨65, 1⟩, ⟨100, 0⟩⟩ ∧
    (∀ out, (Crop.onRecommendClick "150" "50" "50" "25" "60" "6.5" "100" out).head? =
      some (.request "/crop/recommend")) := by
  refine ⟨?_, fun p k t h f r out => rfl, rfl, fun out => rfl⟩
  simp [Crop.getNumber, hne, hparse, hout]

/-- Witness for C4: the range check evaluated at N = 250 with bounds 0-200. -/
theorem crop_out_of_bounds_rejected_witness :
    Crop.getNumber "N" "250" 0 200 = .error (.outOfRange "N") :=
  (crop_out_of_bounds_rejected "N" "250" 0 200 ⟨250, 0⟩ (by decide) rfl
    (by decide)).1

/-- Response body of POST /predict_by_context.  Prices are opaque numeric
values in this code (only moved around, never computed with), modelled Int. -/
structure PredictResp where
  predicted_next_price : Int
  window_size : Nat
  used_points : Nat
  padded : Bool
deriving DecidableEq, Repr

/-- Response body of GET /series_by_context. -/
structure HistorySeries where
  dates : List String
  prices : List Int
deriving DecidableEq, Repr

namespace P0

/-- part_000's predict button click handler (lines 140-164) as a trace of
trigger-button toggles, requests and toasts: an invalid form (validate
returned null, toasting inside validate) returns before touching the
button; otherwise the button is disabled, /predict_by_context posted, on
success drawSeries issues its history fetch, on a thrown error the failure
toast fires, and the finally clause re-enables the button on every path. -/
def predictClickTrace (v : Except ValidationFailure Query)
    (predict : Except String PredictResp) : List UIEvent :=
  match v with
  | .error _ => []
  | .ok _ =>
    [.btnDisabled true, .request "/predict_by_context"] ++
    (match predict with
     | .ok _ => [.request "/series_by_context"]
     | .error msg => [.toastErr ("Prediction failed: " ++ msg)]) ++
    [.btnDisabled false]

/-- Final chart, note and toasts produced by part_000 drawSeries. -/
structure DrawResult where
  labels : List String
  recent : List Int
  predictedNext : List (Option Int)
  note : String
  toasts : List String
deriving DecidableEq, Repr

/-- part_000 drawSeries (lines 202-224); today models new
Date().toISOString().slice(0,10).  The catch path covers a failed /series
fetch, a body without the expected fields, and the RangeError thrown by
new Array(prices.length - 1) when the history has zero points (the labels
and first dataset assigned before that throw are overwritten in the catch).
The source contains no toast call on any path. -/
def drawSeries (q : Query) (today : String) (resp : PredictResp)
    (hist : FetchOutcome HistorySeries) : DrawResult :=
  match hist with
  | .ok (some h) =>
    if h.prices.length = 0 then
      ⟨[q.date.getD today], [], [some resp.predicted_next_price],
       "History endpoint not available; showing predicted point only.", []⟩
    else
      ⟨h.dates ++ [q.date.getD today], h.prices,
       List.replicate (h.prices.length - 1) none ++ [some resp.predicted_next_price],
       "", []⟩
  | .ok none =>
    ⟨[q.date.getD today], [], [some resp.predicted_next_price],
     "History endpoint not available; showing predicted point only.", []⟩
  | .fail =>
    ⟨[q.date.getD today], [], [some resp.predicted_next_price],
     "History endpoint not available; showing predicted point only.", []⟩

end P0

namespace P1

/-- Chart model for part_001: labels and the two datasets; predicted is []
until doPrediction adds the second dataset. -/
structure ChartState where
  labels : List String
  observed : List Int
  predicted : List (Option Int)
deriving DecidableEq, Repr

/-- part_001 renderChart (lines 280-318): destroys any previous chart and
builds one with a single observed-prices dataset. -/
def renderChart (labels : List String) (values : List Int) : ChartState :=
  ⟨labels, values, []⟩

/-- part_001 loadHistory (lines 203-230) with plotOnly = false: on success
the chart is rebuilt from the series (missing fields default to []); on
failure the error toast fires and the previous chart, possibly none, stays. -/
def loadHistory (res : FetchOutcome HistorySeries) (prior : Option ChartState) :
    Option ChartState × List UIEvent :=
  match res with
  | .ok payload =>
    let h := payload.getD ⟨[], []⟩
    (some (renderChart h.dates h.prices), [])
  | .fail =>
    (prior, [.toastErr "Could not load history. Maybe DB has no data for this context."])

/-- part_001 doPrediction (lines 232-278): on success the chips and sentence
are set and, if a chart with at least one label exists, its second dataset
becomes nulls followed by the prediction at index observed.length - 1; for a
labelled chart whose observed series is empty, new Array(-1) throws a
RangeError that the surrounding catch turns into the failure alert. -/
def doPrediction (out : Except String PredictResp) (chart : Option ChartState) :
    Option ChartState × List UIEvent :=
  match out with
  | .ok resp =>
    match chart with
    | some ch =>
      if 0 < ch.labels.length then
        if ch.observed.length = 0 then
          (some ch, [.alertMsg "Prediction failed: Invalid array length"])
        else
          (some { ch with predicted :=
             List.replicate (ch.observed.length - 1) none ++
               [some resp.predicted_next_price] },
           [.toastOk "Prediction successful."])
      else (some ch, [.toastOk "Prediction successful."])
    | none => (none, [.toastOk "Prediction successful."])
  | .error msg => (chart, [.alertMsg ("Prediction failed: " ++ msg)])

/-- part_001 onPredictClick (lines 191-195): validateContext, then
loadHistory, then doPrediction; contextOk = false models the validation
alert with nothing else happening. -/
def onPredictClick (contextOk : Bool) (histRes : FetchOutcome HistorySeries)
    (predictRes : Except String PredictResp) (prior : Option ChartState) :
    Option ChartState × List UIEvent :=
  if contextOk then
    let r1 := loadHistory histRes prior
    let r2 := doPrediction predictRes r1.1
    (r2.1, r1.2 ++ r2.2)
  else (prior, [.alertMsg "Please select commodity, state and market before predicting."])

end P1

theorem togglesDisabled_append (t1 t2 : List UIEvent) :
    togglesDisabled (t1 ++ t2) = (togglesDisabled t1 || togglesDisabled t2) := by
  induction t1 with
  | nil => rfl
  | cons e rest ih => cases e <;> simp [togglesDisabled, ih]

theorem loadHistory_no_toggle (res : FetchOutcome HistorySeries)
    (prior : Option P1.ChartState) :
    togglesDisabled (P1.loadHistory res prior).2 = false := by
  cases res <;> rfl

theorem doPrediction_no_toggle (out : Except String PredictResp)
    (chart : Option P1.ChartState) :
    togglesDisabled (P1.doPrediction out chart).2 = false := by
  cases out with
  | error msg => cases chart <;> rfl
  | ok resp =>
    cases chart with
    | none => rfl
    | some ch =>
      by_cases h1 : 0 < ch.labels.length
      · by_cases h2 : ch.observed.length = 0 <;>
          simp [P1.doPrediction, h1, h2, togglesDisabled]
      · simp [P1.doPrediction, h1, togglesDisabled]

/-- Counterexample to C5 as stated: the crop recommendation click handler
issues its request without ever disabling its trigger control, so the
request event occurs while the control is enabled. -/
theorem recommend_request_with_button_enabled :
    requestsWhileDisabled false
      (Crop.onRecommendClick "150" "50" "50" "25" "60" "6.5" "100" (.ok ())) = false ∧
    togglesDisabled
      (Crop.onRecommendClick "150" "50" "50" "25" "60" "6.5" "100" (.ok ())) = false :=
  ⟨rfl, rfl⟩

/-- C5 amended: part_000's predict handler disables its button before its
requests, issues every request while the button is disabled, and re-enables
it on every exit path (validation failure, success, thrown error); the crop
recommendation handler and part_001's predict handler never toggle their
trigger controls at all. -/
theorem predict_button_guarded (v : Except ValidationFailure Query)
    (predict : Except String PredictResp) (n p k t h f r : String)
    (out : Except String Unit) (cok : Bool) (histRes : FetchOutcome HistorySeries)
    (predictRes : Except String PredictResp) (prior : Option P1.ChartState) :
    requestsWhileDisabled false (P0.predictClickTrace v predict) = true ∧
    finalDisabled false (P0.predictClickTrace v predict) = false ∧
    togglesDisabled (Crop.onRecommendClick n p k t h f r out) = false ∧
    togglesDisabled (P1.onPredictClick cok histRes predictRes prior).2 = false := by
  refine ⟨?_, ?_, ?_, ?_⟩
  · cases v <;> cases predict <;> rfl
  · cases v <;> cases predict <;> rfl
  · cases hp : Crop.recommendPayload n p k t h f r <;> cases out <;>
      simp [Crop.onRecommendClick, hp, togglesDisabled]
  · cases cok
    · rfl
    · show togglesDisabled ((P1.loadHistory histRes prior).2 ++
        (P1.doPrediction predictRes (P1.loadHistory histRes prior).1).2) = false
      rw [togglesDisabled_append, loadHistory_no_toggle, doPrediction_no_toggle]
      rfl

/-- Counterexample to C6 as stated: in part_001, after a prediction success
with used_points = 0 and a failed history lookup on a fresh page (no chart),
the error toast fires and no chart point is drawn at all. -/
theorem history_failure_raises_error_toast :
    P1.onPredictClick true .fail (.ok ⟨1234, 7, 0, true⟩) none =
      (none,
       [.toastErr "Could not load history. Maybe DB has no data for this context.",
        .toastOk "Prediction successful."]) :=
  rfl

/-- C6 amended: in part_000, when the prediction succeeds (any used_points,
0 included) and the history lookup fails, drawSeries absorbs the failure:
exactly one chart point (the prediction), the muted note, no toast on the
chart path and no error toast in the click trace; in part_001 the same
situation instead fires the history error toast and draws no predicted
point when no chart exists. -/
theorem history_failure_degraded (q : Query) (today : String) (resp : PredictResp) :
    (P0.drawSeries q today resp .fail).labels = [q.date.getD today] ∧
    (P0.drawSeries q today resp .fail).recent = [] ∧
    (P0.drawSeries q today resp .fail).predictedNext = [some resp.predicted_next_price] ∧
    (P0.drawSeries q today resp .fail).note =
      "History endpoint not available; showing predicted point only." ∧
    (P0.drawSeries q today resp .fail).toasts = [] ∧
    P0.predictClickTrace (.ok q) (.ok resp) =
      [.btnDisabled true, .request "/predict_by_context", .request "/series_by_context",
       .btnDisabled false] ∧
    (P1.onPredictClick true .fail (.ok resp) none).1 = none ∧
    (P1.onPredictClick true .fail (.ok resp) none).2 =
      [.toastErr "Could not load history. Maybe DB has no data for this context.",
       .toastOk "Prediction successful."] :=
  ⟨rfl, rfl, rfl, rfl, rfl, rfl, rfl, rfl⟩

/-- Bool test of the spec's sparse-series shape: the predicted series has
the same length as the labels, is null before the final index and holds the
prediction at the final index. -/
def sparseAtFinalIndex (labels : List String) (series : List (Option Int))
    (pred : Int) : Bool :=
  decide (series.length = labels.length) &&
  series.dropLast.all (fun x => decide (x = none)) &&
  decide (series.getLast? = some (some pred))

/-- C9 (code bug): with a 3-point history, part_000's drawSeries builds a
4-label chart but a 3-entry predicted series: the prediction lands at index
2 (aligned with the last observed date) and the appended future-date label
at the final index 3 has no value in any dataset, so the predicted series is
not null-except-final-index. -/
theorem predicted_series_misaligned :
    (P0.drawSeries ⟨"Wheat", "Punjab", "Ludhiana", some "2024-05-01"⟩ "2024-04-30"
        ⟨42, 7, 3, false⟩
        (.ok (some ⟨["2024-04-27", "2024-04-28", "2024-04-29"], [10, 20, 30]⟩))).labels =
      ["2024-04-27", "2024-04-28", "2024-04-29", "2024-05-01"] ∧
    (P0.drawSeries ⟨"Wheat", "Punjab", "Ludhiana", some "2024-05-01"⟩ "2024-04-30"
        ⟨42, 7, 3, false⟩
        (.ok (some ⟨["2024-04-27", "2024-04-28", "2024-04-29"], [10, 20, 30]⟩))).predictedNext =
      [none, none, some 42] ∧
    sparseAtFinalIndex
      (P0.drawSeries ⟨"Wheat", "Punjab", "Ludhiana", some "2024-05-01"⟩ "2024-04-30"
        ⟨42, 7, 3, false⟩
        (.ok (some ⟨["2024-04-27", "2024-04-28", "2024-04-29"], [10, 20, 30]⟩))).labels
      (P0.drawSeries ⟨"Wheat", "Punjab", "Ludhiana", some "2024-05-01"⟩ "2024-04-30"
        ⟨42, 7, 3, false⟩
        (.ok (some ⟨["2024-04-27", "2024-04-28", "2024-04-29"], [10, 20, 30]⟩))).predictedNext
      42 = false :=
  ⟨rfl, rfl, by decide⟩

/-- Counterexample to C7 as stated: in part_000 a successful /states fetch
with zero results fires no notification and shows only the generic
placeholder, not a distinct empty display. -/
theorem empty_states_without_notification :
    (P0.commodityChange "Wheat" (.ok (some [])) P0.initUI).2 = [] ∧
    (P0.commodityChange "Wheat" (.ok (some [])) P0.initUI).1.stateSel =
      ⟨true, "Select a state…", [], ""⟩ :=
  ⟨rfl, rfl⟩

/-- C7 amended: in part_001 a zero-result dependent fetch (states or
markets) enters an explicit "No ... found" display, distinct from the error
display, stays disabled, and fires a notification; in part_000 a zero-result
fetch instead leaves the select disabled with only the generic placeholder
and fires no notification. -/
theorem empty_result_states (c s : String) (hc : c ≠ "") (hs : s ≠ "")
    (hct : jsTrim c ≠ "") :
    P1.onCommodityChange c (.ok (some [])) =
      (⟨true, "No states found", [], ""⟩, ⟨true, "Select state first…", [], ""⟩,
       ["No states found for this commodity in DB."]) ∧
    (P1.onCommodityChange c .fail).1 = ⟨true, "Error loading states", [], ""⟩ ∧
    (⟨true, "No states found", [], ""⟩ : SelState) ≠ ⟨true, "Error loading states", [], ""⟩ ∧
    P1.onStateChange c s (.ok (some [])) =
      (⟨true, "No markets found", [], ""⟩, ["No markets found for this state."]) ∧
    (∀ st, (P0.commodityChange c (.ok (some [])) st).2 = [] ∧
      (P0.commodityChange c (.ok (some [])) st).1.stateSel =
        ⟨true, "Select a state…", [], ""⟩) := by
  refine ⟨by simp [P1.onCommodityChange, hc], by simp [P1.onCommodityChange, hc],
    by decide, by simp [P1.onStateChange, hc, hs], ?_⟩
  intro st
  constructor <;>
    simp [P0.commodityChange, P0.commodityChangeStart, P0.commodityChangeResume,
      fillSelect, hct]

/-- Witness for C7's amended statement: the zero-result transition evaluated
at a concrete commodity and state. -/
theorem empty_result_states_witness :
    P1.onCommodityChange "Wheat" (.ok (some [])) =
      (⟨true, "No states found", [], ""⟩, ⟨true, "Select state first…", [], ""⟩,
       ["No states found for this commodity in DB."]) :=
  (empty_result_states "Wheat" "Punjab" (by decide) (by decide) (by decide)).1

end FutureCrop
